import Mathlib

/-!
Verification of the status-service scaffold (src/app.py and src/tests).

The executable part of src/app.py is a placeholder `main` that prints four
lines built from the `ENVIRONMENT` and `PORT` environment variables.  The
two HTTP framework implementations (Flask, lines 13-30, and FastAPI,
lines 34-51) exist in the file only as triple-quoted string literals, so
they are never executed; their text is nevertheless the authoritative
description of the HTTP surface, and the request handlers below are
embedded from that text.  The bind/startup behaviour has no code at all
in the repository and is modelled from the spec where a claim needs it.
-/

namespace StatusService

/-- The process environment: a partial map from variable names to values. -/
def Env : Type := String → Option String

/-- Embedding of Python `os.getenv(name, dflt)`: the value of `name` when it
is set, otherwise the default. -/
def getenv (env : Env) (name dflt : String) : String :=
  (env name).getD dflt

/-! ## HTTP surface

Embedded from the commented Flask block of src/app.py (lines 13-30); the
FastAPI block (lines 34-51) describes the same two handlers. -/

/-- An HTTP request: method, path, and arbitrary headers and query
parameters (the handlers ignore all of them). -/
structure Request where
  method : String
  path : String
  headers : List (String × String)
  query : List (String × String)
deriving DecidableEq

/-- An HTTP response: a status code and a flat JSON-object body rendered as
key/value pairs. -/
structure Response where
  status : Nat
  body : List (String × String)
deriving DecidableEq

/-- Handler of `GET /health` (src/app.py lines 18-20 / 40-42): a constant
200 response. -/
def health (_r : Request) : Response :=
  ⟨200, [("status", "healthy"), ("version", "1.0.0")]⟩

/-- Handler of `GET /` (src/app.py lines 22-24 / 44-46): a constant 200
response. -/
def index (_r : Request) : Response :=
  ⟨200, [("message", "Welcome to the API")]⟩

/-- The routing table of the application: the two registered routes answer
`GET`; anything else is a framework-level 404/405. -/
def handle (r : Request) : Response :=
  if r.method = "GET" then
    if r.path = "/health" then health r
    else if r.path = "/" then index r
    else ⟨404, []⟩
  else ⟨405, []⟩

/-! ## The executable module

`python src/app.py` runs: `load_dotenv()` (line 9), evaluates the two
triple-quoted string literals (lines 13-30 and 34-51, no effect), defines
`main`, and calls `main()` (lines 63-64).  `main` (lines 55-60) prints four
lines and returns; every statement it executes is infallible. -/

/-- An observable effect of the process. -/
inductive Effect where
  | print (line : String)
  | loadEnvFile
  | bindSocket (host : String) (port : Nat)
  | registerRoute (method : String) (path : String)
deriving DecidableEq

/-- A Python exception, for the `Except` embedding of fallible statements
(none of the executed statements can raise one). -/
inductive PyExc where
  | exc (msg : String)
deriving DecidableEq

/-- Embedding of a Python `print(s)` statement: one print effect, never
raises. -/
def pyPrint (s : String) : Except PyExc (List Effect) :=
  .ok [.print s]

/-- Embedding of `load_dotenv()` (src/app.py line 9): reads an optional
`.env` file, never raises. -/
def pyLoadDotenv : Except PyExc (List Effect) :=
  .ok [.loadEnvFile]

/-- The four lines printed by `main()` (src/app.py lines 55-60), as a
function of the process environment. -/
def main (env : Env) : List String :=
  [ "Python Web Application",
    "Please uncomment and configure your chosen framework above.",
    "Environment: " ++ getenv env "ENVIRONMENT" "development",
    "Port: " ++ getenv env "PORT" "8000" ]

/-- Statement-by-statement embedding of running `python src/app.py`: the
trace of effects of the whole module, or the exception that escaped. -/
def runModule (env : Env) : Except PyExc (List Effect) := do
  let e0 ← pyLoadDotenv
  let e1 ← pyPrint "Python Web Application"
  let e2 ← pyPrint "Please uncomment and configure your chosen framework above."
  let e3 ← pyPrint ("Environment: " ++ getenv env "ENVIRONMENT" "development")
  let e4 ← pyPrint ("Port: " ++ getenv env "PORT" "8000")
  return e0 ++ e1 ++ e2 ++ e3 ++ e4

/-- Recogniser of print effects, keeping the printed line. -/
def printLine? : Effect → Option String
  | .print s => some s
  | _ => none

/-- Recogniser of socket-binding effects. -/
def isBindSocket : Effect → Bool
  | .bindSocket _ _ => true
  | _ => false

/-- Recogniser of handler-registration effects. -/
def isRegisterRoute : Effect → Bool
  | .registerRoute _ _ => true
  | _ => false

/-! ## Server runs and startup

The handlers read no mutable state, so the server state is just the
immutable configuration read once at startup.  Startup itself has no
executable code in the repository; `startService` below is modelled from
the spec. -/

/-- The immutable per-process configuration, read once before the listener
starts. -/
structure Config where
  port : String
  environment : String
  debug : Bool
deriving DecidableEq

/-- One request/response exchange: the handlers never touch the
configuration, so the state is returned unchanged. -/
def step (cfg : Config) (r : Request) : Config × Response :=
  (cfg, handle r)

/-- Serve a list of requests in order, threading the server state. -/
def serve (cfg : Config) : List Request → Config × List Response
  | [] => (cfg, [])
  | r :: rs =>
    let (cfg1, resp) := step cfg r
    let (cfg2, resps) := serve cfg1 rs
    (cfg2, resp :: resps)

/-- Modelled from the spec: only `BindError` exists (spec section 7,
"Only one error kind exists"). -/
inductive StartError where
  | bindError
deriving DecidableEq

/-- Modelled from the spec: whether the configured port is already occupied
and whether the process is permitted to bind it. -/
structure PortState where
  occupied : Bool
  permitted : Bool
deriving DecidableEq

/-- An observable event of the service process. -/
inductive ProcEvent where
  | served (r : Request) (resp : Response)
  | stderr (e : StartError)
  | exited (code : Nat)
deriving DecidableEq

/-- Modelled from the spec: `start(port, debugFlag)` (spec section 4.1).
There is no startup code in the repository (the framework blocks are
unexecuted string literals), so this follows the spec's words: binding
fails with `BindError` exactly when the port is occupied or the process
lacks permission; the failure is surfaced on standard error once (no
retry), no request is served, and the process exits non-zero; otherwise the
listener serves every incoming request with the pure handlers. -/
def startService (ps : PortState) (incoming : List Request) :
    List ProcEvent :=
  if ps.occupied || !ps.permitted then
    [.stderr .bindError, .exited 1]
  else
    incoming.map fun r => .served r (handle r)

/-- Embedding of Python `str.lower()` on the ASCII range: lower-case every
character of the string. -/
def pyLower (s : String) : String :=
  ⟨s.data.map Char.toLower⟩

/-- The debug flag of the commented Flask block (src/app.py line 28):
`os.getenv('DEBUG', 'False').lower() == 'true'`. -/
def debugOf (env : Env) : Bool :=
  pyLower (getenv env "DEBUG" "False") == "true"

/-! ## Example tests (src/tests) -/

/-- The pytest fixture `sample_data` (src/tests/conftest.py lines 7-15): a
fixed nested dictionary, embedded as nested association lists. -/
def sample_data : List (String × List (String × String)) :=
  [("user", [("username", "testuser"), ("email", "test@example.com")])]

/-- The value computed by `test_addition`
(src/tests/test_example.py line 15): `result = 2 + 2`. -/
def test_addition_result : Nat := 2 + 2

end StatusService

namespace StatusService

/-- Coherence: the lines printed by the module run are exactly the lines of
`main`. -/
theorem runModule_printed (env : Env) :
    ∃ tr, runModule env = .ok tr ∧ tr.filterMap printLine? = main env := by
  refine ⟨_, rfl, ?_⟩
  simp [printLine?, main]

/-- C1: every `GET /health` request, whatever its headers and query
parameters, gets status 200 with body exactly
`status = healthy, version = 1.0.0`; `handle` is a total pure function, so
there is no side effect and no failure case. -/
theorem c1_health_fixed_response (r : Request)
    (hm : r.method = "GET") (hp : r.path = "/health") :
    handle r = ⟨200, [("status", "healthy"), ("version", "1.0.0")]⟩ := by
  simp [handle, hm, hp, health]

/-- C1 witness: the theorem applied to a concrete request carrying headers
and query parameters. -/
theorem c1_health_fixed_response_witness :
    handle ⟨"GET", "/health", [("Accept", "text/html")], [("verbose", "1")]⟩ =
      ⟨200, [("status", "healthy"), ("version", "1.0.0")]⟩ :=
  c1_health_fixed_response
    ⟨"GET", "/health", [("Accept", "text/html")], [("verbose", "1")]⟩ rfl rfl

/-- C2: every `GET /` request, whatever its headers and query parameters,
gets status 200 with body exactly `message = Welcome to the API`; `handle`
is a total pure function, so there is no side effect and no failure
case. -/
theorem c2_root_fixed_response (r : Request)
    (hm : r.method = "GET") (hp : r.path = "/") :
    handle r = ⟨200, [("message", "Welcome to the API")]⟩ := by
  simp [handle, hm, hp, index]

/-- C2 witness: the theorem applied to a concrete request carrying headers
and query parameters. -/
theorem c2_root_fixed_response_witness :
    handle ⟨"GET", "/", [("Accept", "application/json")], [("q", "x")]⟩ =
      ⟨200, [("message", "Welcome to the API")]⟩ :=
  c2_root_fixed_response
    ⟨"GET", "/", [("Accept", "application/json")], [("q", "x")]⟩ rfl rfl

/-- C3: startup fails with `BindError` exactly when the port is occupied or
binding is not permitted; the failure is not retried, no request is served,
and the process exits non-zero; in every other case no error event occurs
and only requests are served. -/
theorem c3_bind_error_iff (ps : PortState) (incoming : List Request) :
    ((ps.occupied = true ∨ ps.permitted = false) ↔
      ProcEvent.stderr StartError.bindError ∈ startService ps incoming) ∧
    ((ps.occupied = true ∨ ps.permitted = false) →
      startService ps incoming =
        [ProcEvent.stderr StartError.bindError, ProcEvent.exited 1]) ∧
    (∀ c, ProcEvent.exited c ∈ startService ps incoming → c ≠ 0) ∧
    (ps.occupied = false ∧ ps.permitted = true →
      ∀ e ∈ startService ps incoming, ∃ r resp, e = ProcEvent.served r resp) := by
  obtain ⟨occ, perm⟩ := ps
  cases occ <;> cases perm <;> simp [startService]

/-- C3 witness: with the port occupied, startup surfaces `BindError` once
and exits with code 1, serving nothing. -/
theorem c3_bind_error_iff_witness :
    startService ⟨true, true⟩
        [⟨"GET", "/health", [], []⟩] =
      [ProcEvent.stderr StartError.bindError, ProcEvent.exited 1] :=
  (c3_bind_error_iff ⟨true, true⟩ [⟨"GET", "/health", [], []⟩]).2.1
    (Or.inl rfl)

/-- C8: request handling is idempotent and drift-free: serving any request
list leaves the server state unchanged and answers each request with the
same pure handler, so issuing a request N times yields N identical
responses, independent of any prior request. -/
theorem c8_idempotent_handlers (cfg : Config) (rs : List Request)
    (n : Nat) (r : Request) :
    serve cfg rs = (cfg, rs.map handle) ∧
    serve cfg (List.replicate n r) = (cfg, List.replicate n (handle r)) := by
  have h : ∀ l : List Request, serve cfg l = (cfg, l.map handle) := by
    intro l
    induction l with
    | nil => rfl
    | cons q qs ih => simp [serve, step, ih]
  exact ⟨h rs, by simp [h, List.map_replicate]⟩

/-- C8 witness: the theorem applied to a concrete configuration and three
repetitions of the health request. -/
theorem c8_idempotent_handlers_witness :
    serve ⟨"8000", "development", false⟩
        (List.replicate 3 ⟨"GET", "/health", [], []⟩) =
      (⟨"8000", "development", false⟩,
        List.replicate 3 (handle ⟨"GET", "/health", [], []⟩)) :=
  (c8_idempotent_handlers ⟨"8000", "development", false⟩ [] 3
      ⟨"GET", "/health", [], []⟩).2

/-- C10: the fixture `sample_data` always returns the fixed nested
dictionary, so every assertion of the example test suite holds: the trivial
`True`, `2 + 2 == 4`, `user` membership and the username equality. -/
theorem c10_example_tests_hold :
    sample_data =
      [("user", [("username", "testuser"), ("email", "test@example.com")])] ∧
    test_addition_result = 4 ∧
    "user" ∈ sample_data.map Prod.fst ∧
    (sample_data.lookup "user").bind (List.lookup "username") =
      some "testuser" := by
  decide

/-- C4: running `python src/app.py` terminates normally (no exception, for
any environment) with a trace that prints exactly four lines, never binds a
network socket and never registers an HTTP handler: both framework blocks
are unexecuted string literals. -/
theorem c4_module_prints_four_lines_no_server (env : Env) :
    ∃ tr, runModule env = .ok tr ∧
      (tr.filterMap printLine?).length = 4 ∧
      ∀ e ∈ tr, isBindSocket e = false ∧ isRegisterRoute e = false := by
  refine ⟨_, rfl, ?_, ?_⟩
  · simp [printLine?]
  · intro e he
    simp only [List.mem_append, List.mem_singleton] at he
    rcases he with ((((h | h) | h) | h) | h) <;> subst h <;>
      exact ⟨rfl, rfl⟩

/-- C4 witness: the theorem applied to the empty environment. -/
theorem c4_module_prints_four_lines_no_server_witness :
    ∃ tr, runModule (fun _ => none) = .ok tr ∧
      (tr.filterMap printLine?).length = 4 ∧
      ∀ e ∈ tr, isBindSocket e = false ∧ isRegisterRoute e = false :=
  c4_module_prints_four_lines_no_server (fun _ => none)

/-- C5: the printed port is the value of `PORT` when that variable is set
and `8000` otherwise (src/app.py line 60); in particular `PORT=9090` gives
`9090`. -/
theorem c5_port_defaulting (env : Env) :
    (env "PORT" = none → (main env).get? 3 = some "Port: 8000") ∧
    (∀ p, env "PORT" = some p →
      (main env).get? 3 = some ("Port: " ++ p)) := by
  constructor
  · intro h
    simp [main, getenv, h]
  · intro p h
    simp [main, getenv, h]

/-- C5 witness: with `PORT=9090` the printed port line is `Port: 9090`, and
with `PORT` unset it is `Port: 8000`. -/
theorem c5_port_defaulting_witness :
    (main (fun n => if n = "PORT" then some "9090" else none)).get? 3 =
        some ("Port: " ++ "9090") ∧
    (main (fun _ => none)).get? 3 = some "Port: 8000" :=
  ⟨(c5_port_defaulting (fun n => if n = "PORT" then some "9090" else none)).2
      "9090" (by simp),
   (c5_port_defaulting (fun _ => none)).1 rfl⟩

/-- C6: `main` takes no argument beyond the ambient environment, prints the
value of `ENVIRONMENT` (default `development`) and of `PORT` (default
`8000`) among its exactly four diagnostic lines, and returns. -/
theorem c6_main_diagnostic_lines (env : Env) :
    (main env).length = 4 ∧
    (main env).get? 2 =
      some ("Environment: " ++ (env "ENVIRONMENT").getD "development") ∧
    (main env).get? 3 = some ("Port: " ++ (env "PORT").getD "8000") :=
  ⟨rfl, rfl, rfl⟩

/-- C7: the debug flag of the (commented) Flask block is true exactly when
`DEBUG`, lower-cased, equals `true`; in every other case, including `DEBUG`
unset (default string `False`), it is false. -/
theorem c7_debug_parsing (env : Env) :
    (debugOf env = true ↔ pyLower ((env "DEBUG").getD "False") = "true") ∧
    (env "DEBUG" = none → debugOf env = false) := by
  constructor
  · simp [debugOf, getenv]
  · intro h
    simp [debugOf, getenv, h]
    decide

/-- C7 witness: `DEBUG=TRUE` parses to true, `DEBUG` unset parses to
false. -/
theorem c7_debug_parsing_witness :
    debugOf (fun n => if n = "DEBUG" then some "TRUE" else none) = true ∧
    debugOf (fun _ => none) = false :=
  ⟨(c7_debug_parsing (fun n => if n = "DEBUG" then some "TRUE" else none)).1.mpr
      (by decide),
   (c7_debug_parsing (fun _ => none)).2 rfl⟩

/-- C9: the printed output of `main` depends only on the `ENVIRONMENT` and
`PORT` variables: two environments that agree on those two (and are
otherwise arbitrary) print identical output. -/
theorem c9_output_depends_only_on_env_and_port (env1 env2 : Env)
    (he : env1 "ENVIRONMENT" = env2 "ENVIRONMENT")
    (hp : env1 "PORT" = env2 "PORT") :
    main env1 = main env2 := by
  simp [main, getenv, he, hp]

/-- C9 witness: two concrete environments differing in `HOME` and `DEBUG`
but agreeing on `ENVIRONMENT` and `PORT` print the same lines. -/
theorem c9_output_depends_only_on_env_and_port_witness :
    main (fun n =>
        if n = "ENVIRONMENT" then some "production"
        else if n = "PORT" then some "5000"
        else if n = "HOME" then some "/root" else none) =
      main (fun n =>
        if n = "ENVIRONMENT" then some "production"
        else if n = "PORT" then some "5000"
        else if n = "DEBUG" then some "true" else none) :=
  c9_output_depends_only_on_env_and_port _ _ (by simp) (by simp)

end StatusService
